import Mathlib

/-!
Shallow embedding of the token-caching authentication layer and the generic
authenticated-request dispatcher of `src/outlook_server.py` (an Outlook MCP
server talking to Microsoft Graph).

Modelling conventions:
* Timestamps (`datetime.now().timestamp()`) are modelled as `Int`.  Each call
  takes `now` (the clock at the cache check, line 45) and `exchangeTime`
  (the clock after the token exchange, line 67) separately, since the source
  reads the clock twice.
* Network activity is modelled with oracles: the response the token endpoint
  (resp. the Graph endpoint) would produce if called is an input, and the
  outcome records how many exchange calls were made and the list of Graph
  HTTP calls actually issued, so "no network call" is a provable statement.
* Python truthiness is preserved: `if _access_token and _token_expiry and ...`
  (line 45) treats the empty string and the number 0 as absent.
* JSON parsing (`response.json()`) is external library code; it is modelled
  as a parameter `parse : String → Option JsonVal` (a `none` result stands
  for `json.JSONDecodeError`).
* `raise_for_status` (httpx) raises exactly when the status is not 2xx.
-/

namespace OutlookServer

/-- A JSON value, the payload type of Graph requests and responses. -/
inductive JsonVal where
  | null
  | bool (b : Bool)
  | num (n : Int)
  | str (s : String)
  | arr (elems : List JsonVal)
  | obj (fields : List (String × JsonVal))
deriving Repr

/-- The three credentials read from the environment at module load
(lines 28-30); each defaults to the empty string when unset. -/
structure Config where
  TENANT_ID : String
  CLIENT_ID : String
  CLIENT_SECRET : String
deriving Repr, DecidableEq

/-- The module-level token cache: globals `_access_token` and `_token_expiry`
(lines 37-38), both initialised to `None`. -/
structure AuthState where
  access_token : Option String
  token_expiry : Option Int
deriving Repr, DecidableEq

/-- Initial cache state: `_access_token = None`, `_token_expiry = None`. -/
def initialAuthState : AuthState := { access_token := none, token_expiry := none }

/-- Python truthiness of the optional token string: `None` and `""` are falsy. -/
def strTruthy : Option String → Bool
  | none => false
  | some s => !(s == "")

/-- Python truthiness of the optional expiry number: `None` and `0` are falsy. -/
def numTruthy : Option Int → Bool
  | none => false
  | some e => !(e == 0)

/-- httpx `response.is_success`: 2xx status; `raise_for_status` raises
exactly when this is false. -/
def isSuccessStatus (status : Nat) : Bool := 200 ≤ status && status < 300

/-- The response the identity provider's token endpoint would give:
HTTP status, raw body text, and the parsed JSON fields the source reads
(`access_token`, optional `expires_in`). -/
structure TokenResponse where
  status : Nat
  text : String
  access_token : String
  expires_in : Option Int
deriving Repr, DecidableEq

/-- Errors raised by `get_access_token`: the credentials check at line 48
(`ConfigurationError` of the spec) and the `raise_for_status` at line 62
(`AuthenticationError` of the spec, carrying status and response body). -/
inductive AuthError where
  | configurationError (msg : String)
  | authenticationError (status : Nat) (body : String)
deriving Repr, DecidableEq

/-- Outcome of one `get_access_token()` call: the returned token or the
raised error, the token cache after the call, and how many token-exchange
network calls were made. -/
structure AuthOutcome where
  result : Except AuthError String
  state : AuthState
  exchangeCalls : Nat
deriving Repr

/-- The cache-hit guard of line 45:
`_access_token and _token_expiry and datetime.now().timestamp() < _token_expiry`. -/
def fastPathB (st : AuthState) (now : Int) : Bool :=
  strTruthy st.access_token && numTruthy st.token_expiry &&
    decide (now < st.token_expiry.getD 0)

/-- The credentials check of line 48:
`not TENANT_ID or not CLIENT_ID or not CLIENT_SECRET`. -/
def credentialsMissing (cfg : Config) : Bool :=
  cfg.TENANT_ID == "" || cfg.CLIENT_ID == "" || cfg.CLIENT_SECRET == ""

/-- `get_access_token()` (lines 41-69).  `now` is the clock at the line-45
check, `exchangeTime` the clock at line 67, `resp` the oracle for the token
endpoint's response (consulted only when an exchange is performed). -/
def get_access_token (cfg : Config) (st : AuthState) (now exchangeTime : Int)
    (resp : TokenResponse) : AuthOutcome :=
  if fastPathB st now then
    { result := .ok (st.access_token.getD ""), state := st, exchangeCalls := 0 }
  else if credentialsMissing cfg then
    { result := .error (.configurationError
        "Missing required credentials: TENANT_ID, CLIENT_ID, CLIENT_SECRET"),
      state := st, exchangeCalls := 0 }
  else if !(isSuccessStatus resp.status) then
    { result := .error (.authenticationError resp.status resp.text),
      state := st, exchangeCalls := 1 }
  else
    let tok := resp.access_token
    let expiry := exchangeTime + resp.expires_in.getD 3600 - 60
    { result := .ok tok,
      state := { access_token := some tok, token_expiry := some expiry },
      exchangeCalls := 1 }

/-- Python `method.upper()` (lines 83-90).  Modelled character-wise over the
string's characters; on the ASCII method strings in play this agrees with
Python's Unicode-aware `str.upper`. -/
def pyUpper (s : String) : String := String.mk (s.data.map Char.toUpper)

/-- Errors raised by `make_graph_request`: a propagated token-manager error
(the dispatcher does not catch those, line 74), the `ValueError` of line 92
(`UnsupportedMethodError` of the spec, whose message embeds the original
method string), the re-raised Graph HTTP error of line 101
(`RemoteAPIError` of the spec, carrying status and raw body), and a
`json.JSONDecodeError` escaping from `response.json()` at line 97. -/
inductive GraphError where
  | auth (e : AuthError)
  | unsupportedMethod (method : String)
  | apiError (status : Nat) (body : String)
  | jsonDecodeError (body : String)
deriving Repr, DecidableEq

/-- One outbound Graph HTTP call as issued by lines 83-90: the actual wire
verb, full URL, bearer token, JSON body (`json=` keyword; absent for GET and
DELETE), query parameters (`params=` keyword; absent for DELETE), and the
timeout argument. -/
structure HTTPCall where
  verb : String
  url : String
  bearer : String
  jsonBody : Option JsonVal
  queryParams : Option (List (String × String))
  timeout : Nat
deriving Repr

/-- The response the Graph endpoint would give: HTTP status and raw body
text (`response.text`). -/
structure GraphResponse where
  status : Nat
  text : String
deriving Repr, DecidableEq

/-- Outcome of one `make_graph_request()` call: parsed JSON result or raised
error, the token cache after the call, the number of token-exchange network
calls, and the list of Graph HTTP calls actually issued. -/
structure GraphOutcome where
  result : Except GraphError JsonVal
  state : AuthState
  exchangeCalls : Nat
  httpCalls : List HTTPCall
deriving Repr

/-- Line 34: the versioned Graph base URL. -/
def GRAPH_BASE_URL : String := "https://graph.microsoft.com/v1.0"

/-- Lines 94-98: `raise_for_status()` (re-raised at line 101 with status and
raw body), then return the parsed JSON body when non-empty, else `{}`. -/
def handleGraphResponse (parse : String → Option JsonVal)
    (resp : GraphResponse) : Except GraphError JsonVal :=
  if !(isSuccessStatus resp.status) then
    .error (.apiError resp.status resp.text)
  else if !(resp.text == "") then
    match parse resp.text with
    | some v => .ok v
    | none => .error (.jsonDecodeError resp.text)
  else
    .ok (JsonVal.obj [])

/-- Lines 83-98: the method dispatch on `method.upper()` and the issuing of
the single Graph HTTP call.  Returns the call result together with the list
of HTTP calls issued (empty when the method is unsupported).  Note DELETE
(line 90) passes neither `json=` nor `params=`. -/
def dispatchMethod (parse : String → Option JsonVal) (method endpoint : String)
    (data : Option JsonVal) (params : Option (List (String × String)))
    (token : String) (resp : GraphResponse) :
    Except GraphError JsonVal × List HTTPCall :=
  let url := GRAPH_BASE_URL ++ endpoint
  let m := pyUpper method
  if m == "GET" then
    (handleGraphResponse parse resp, [⟨"GET", url, token, none, params, 30⟩])
  else if m == "POST" then
    (handleGraphResponse parse resp, [⟨"POST", url, token, data, params, 30⟩])
  else if m == "PATCH" then
    (handleGraphResponse parse resp, [⟨"PATCH", url, token, data, params, 30⟩])
  else if m == "DELETE" then
    (handleGraphResponse parse resp, [⟨"DELETE", url, token, none, none, 30⟩])
  else
    (.error (.unsupportedMethod method), [])

/-- `make_graph_request()` (lines 72-101).  First obtains a token (line 74,
possibly performing a token-exchange network call, and propagating
`get_access_token` errors unchanged), then dispatches on the method and
issues at most one Graph HTTP call.  `graphResp` is the oracle for the Graph
endpoint's response (consulted only when a call is issued). -/
def make_graph_request (parse : String → Option JsonVal) (cfg : Config)
    (st : AuthState) (now exchangeTime : Int) (tokenResp : TokenResponse)
    (method endpoint : String) (data : Option JsonVal)
    (params : Option (List (String × String))) (graphResp : GraphResponse) :
    GraphOutcome :=
  let auth := get_access_token cfg st now exchangeTime tokenResp
  match auth.result with
  | .error e =>
      { result := .error (.auth e), state := auth.state,
        exchangeCalls := auth.exchangeCalls, httpCalls := [] }
  | .ok token =>
      let issued := dispatchMethod parse method endpoint data params token graphResp
      { result := issued.1, state := auth.state,
        exchangeCalls := auth.exchangeCalls, httpCalls := issued.2 }

/-- Reachable token-cache states of the running process under a fixed
configuration: the cache starts empty (line 37-38) and is only ever changed
by `get_access_token` calls. -/
inductive ReachableAuth (cfg : Config) : AuthState → Prop where
  | init : ReachableAuth cfg initialAuthState
  | step (st : AuthState) (now exchangeTime : Int) (resp : TokenResponse) :
      ReachableAuth cfg st →
      ReachableAuth cfg (get_access_token cfg st now exchangeTime resp).state

/-- Helper: when token acquisition succeeds with token `tok`, the dispatcher
outcome is the method dispatch performed with `tok`, and the cache and
exchange-call count are those of the `get_access_token` call. -/
theorem make_graph_request_ok_eq (parse : String → Option JsonVal)
    (cfg : Config) (st : AuthState) (now exchangeTime : Int)
    (tokenResp : TokenResponse) (method endpoint : String)
    (data : Option JsonVal) (params : Option (List (String × String)))
    (graphResp : GraphResponse) (tok : String)
    (hauth : (get_access_token cfg st now exchangeTime tokenResp).result = .ok tok) :
    make_graph_request parse cfg st now exchangeTime tokenResp method endpoint
        data params graphResp =
      { result := (dispatchMethod parse method endpoint data params tok graphResp).1,
        state := (get_access_token cfg st now exchangeTime tokenResp).state,
        exchangeCalls := (get_access_token cfg st now exchangeTime tokenResp).exchangeCalls,
        httpCalls := (dispatchMethod parse method endpoint data params tok graphResp).2 } := by
  simp only [make_graph_request]
  rw [hauth]

/-- Helper: the missing-credentials branch keeps the cache empty, so every
state reachable under a configuration with a missing credential is the
initial (empty) one. -/
theorem reachable_empty_of_missing_credentials (cfg : Config)
    (hmiss : credentialsMissing cfg = true) :
    ∀ st : AuthState, ReachableAuth cfg st → st = initialAuthState := by
  intro st hr
  induction hr with
  | init => rfl
  | step st now exchangeTime resp _ ih =>
      rw [ih]
      simp [get_access_token, fastPathB, strTruthy, initialAuthState, hmiss]

/-- C4: if a (nonempty) token is cached and `now` is strictly before its
expiry, `get_access_token` returns the cached value unchanged, makes no
network call, and leaves the cache untouched.  The hypothesis `0 ≤ now`
reflects that the real clock (seconds since the epoch) is never negative;
together with `now < e` it rules out the Python-falsy expiry `0`. -/
theorem c4_fast_path_side_effect_free (cfg : Config) (st : AuthState)
    (now exchangeTime : Int) (resp : TokenResponse) (tok : String) (e : Int)
    (htok : st.access_token = some tok) (hne : tok ≠ "")
    (hexp : st.token_expiry = some e) (hnow : 0 ≤ now) (hlt : now < e) :
    (get_access_token cfg st now exchangeTime resp).result = .ok tok ∧
    (get_access_token cfg st now exchangeTime resp).state = st ∧
    (get_access_token cfg st now exchangeTime resp).exchangeCalls = 0 := by
  have hfast : fastPathB st now = true := by
    simp [fastPathB, strTruthy, numTruthy, htok, hexp, hne]
    constructor
    · omega
    · exact hlt
  simp [get_access_token, hfast, htok]

/-- Witness for C4 at a concrete state. -/
theorem c4_fast_path_side_effect_free_witness :
    (get_access_token ⟨"t", "c", "s"⟩ ⟨some "tok", some 100⟩ 5 5
        ⟨200, "", "fresh", some 3600⟩).result = .ok "tok" ∧
    (get_access_token ⟨"t", "c", "s"⟩ ⟨some "tok", some 100⟩ 5 5
        ⟨200, "", "fresh", some 3600⟩).state = ⟨some "tok", some 100⟩ ∧
    (get_access_token ⟨"t", "c", "s"⟩ ⟨some "tok", some 100⟩ 5 5
        ⟨200, "", "fresh", some 3600⟩).exchangeCalls = 0 :=
  c4_fast_path_side_effect_free ⟨"t", "c", "s"⟩ ⟨some "tok", some 100⟩ 5 5
    ⟨200, "", "fresh", some 3600⟩ "tok" 100 rfl (by decide) rfl (by decide) (by decide)

/-- C5: when the cache misses (no usable token), the credentials are
present and the exchange succeeds, exactly one token-exchange network call
occurs, the new cache entry has `expiresAt = exchangeTime + expires_in - 60`
(with `expires_in` defaulting to 3600 when absent), and the new token
replaces the cached value and is returned. -/
theorem c5_refresh_success (cfg : Config) (st : AuthState)
    (now exchangeTime : Int) (resp : TokenResponse)
    (hfast : fastPathB st now = false)
    (hcred : credentialsMissing cfg = false)
    (hok : isSuccessStatus resp.status = true) :
    (get_access_token cfg st now exchangeTime resp).result = .ok resp.access_token ∧
    (get_access_token cfg st now exchangeTime resp).state =
      { access_token := some resp.access_token,
        token_expiry := some (exchangeTime + resp.expires_in.getD 3600 - 60) } ∧
    (get_access_token cfg st now exchangeTime resp).exchangeCalls = 1 := by
  simp [get_access_token, hfast, hcred, hok]

/-- Witness for C5: empty cache, valid credentials, successful exchange with
`expires_in = 3600` at time 1000 caches expiry 4540 = 1000 + 3600 - 60. -/
theorem c5_refresh_success_witness :
    (get_access_token ⟨"t", "c", "s"⟩ initialAuthState 1000 1000
        ⟨200, "body", "fresh", some 3600⟩).result = .ok "fresh" ∧
    (get_access_token ⟨"t", "c", "s"⟩ initialAuthState 1000 1000
        ⟨200, "body", "fresh", some 3600⟩).state =
      { access_token := some "fresh", token_expiry := some (1000 + 3600 - 60) } ∧
    (get_access_token ⟨"t", "c", "s"⟩ initialAuthState 1000 1000
        ⟨200, "body", "fresh", some 3600⟩).exchangeCalls = 1 :=
  c5_refresh_success ⟨"t", "c", "s"⟩ initialAuthState 1000 1000
    ⟨200, "body", "fresh", some 3600⟩ (by decide) (by decide) (by decide)

/-- C6: when the cache misses, the credentials are present and the token
endpoint answers with a non-2xx status, the call fails with an
`AuthenticationError` carrying that status and the raw response body, after
exactly one exchange call, and the cache is left unchanged. -/
theorem c6_exchange_failure (cfg : Config) (st : AuthState)
    (now exchangeTime : Int) (resp : TokenResponse)
    (hfast : fastPathB st now = false)
    (hcred : credentialsMissing cfg = false)
    (hbad : isSuccessStatus resp.status = false) :
    (get_access_token cfg st now exchangeTime resp).result =
      .error (.authenticationError resp.status resp.text) ∧
    (get_access_token cfg st now exchangeTime resp).state = st ∧
    (get_access_token cfg st now exchangeTime resp).exchangeCalls = 1 := by
  simp [get_access_token, hfast, hcred, hbad]

/-- Witness for C6: a 401 from the token endpoint is surfaced with its body
and caches nothing. -/
theorem c6_exchange_failure_witness :
    (get_access_token ⟨"t", "c", "s"⟩ initialAuthState 1000 1000
        ⟨401, "invalid_client", "", none⟩).result =
      .error (.authenticationError 401 "invalid_client") ∧
    (get_access_token ⟨"t", "c", "s"⟩ initialAuthState 1000 1000
        ⟨401, "invalid_client", "", none⟩).state = initialAuthState ∧
    (get_access_token ⟨"t", "c", "s"⟩ initialAuthState 1000 1000
        ⟨401, "invalid_client", "", none⟩).exchangeCalls = 1 :=
  c6_exchange_failure ⟨"t", "c", "s"⟩ initialAuthState 1000 1000
    ⟨401, "invalid_client", "", none⟩ (by decide) (by decide) (by decide)

/-- Counterexample to C2 as stated: with an empty cache at time 1000 and a
successful exchange reporting `expires_in = 60`, `get_access_token` returns
the fresh token, yet the cached `expiresAt` is 1000 + 60 - 60 = 1000, which
is NOT strictly in the future at the moment of the check. -/
theorem c2_counterexample :
    (get_access_token ⟨"t", "c", "s"⟩ initialAuthState 1000 1000
        ⟨200, "body", "fresh", some 60⟩).result = .ok "fresh" ∧
    (get_access_token ⟨"t", "c", "s"⟩ initialAuthState 1000 1000
        ⟨200, "body", "fresh", some 60⟩).state.token_expiry = some 1000 ∧
    ¬((1000 : Int) < 1000) := by
  refine ⟨rfl, rfl, by omega⟩

/-- C2 amended: whenever `get_access_token` returns a token, the cached
`expiresAt` is strictly in the future, PROVIDED the exchange's `expires_in`
(default 3600) exceeds the 60-second safety margin; the clock does not run
backwards between the cache check and the expiry computation. -/
theorem c2_amended_expiry_future (cfg : Config) (st : AuthState)
    (now exchangeTime : Int) (resp : TokenResponse) (tok : String)
    (hclock : now ≤ exchangeTime)
    (hlife : 60 < resp.expires_in.getD 3600)
    (hok : (get_access_token cfg st now exchangeTime resp).result = .ok tok) :
    ∃ e : Int, (get_access_token cfg st now exchangeTime resp).state.token_expiry
        = some e ∧ now < e := by
  by_cases hfast : fastPathB st now = true
  · refine ⟨st.token_expiry.getD 0, ?_, ?_⟩
    · have hnum : numTruthy st.token_expiry = true := by
        have := hfast
        simp [fastPathB] at this
        exact this.1.2
      cases hexp : st.token_expiry with
      | none => rw [hexp] at hnum; simp [numTruthy] at hnum
      | some e => simp [get_access_token, hfast, hexp]
    · have := hfast
      simp [fastPathB] at this
      exact this.2
  · rw [Bool.not_eq_true] at hfast
    by_cases hcred : credentialsMissing cfg = true
    · simp [get_access_token, hfast, hcred] at hok
    · rw [Bool.not_eq_true] at hcred
      by_cases hst : isSuccessStatus resp.status = true
      · refine ⟨exchangeTime + resp.expires_in.getD 3600 - 60, ?_, ?_⟩
        · simp [get_access_token, hfast, hcred, hst]
        · omega
      · rw [Bool.not_eq_true] at hst
        simp [get_access_token, hfast, hcred, hst] at hok

/-- Witness for the amended C2: a fresh exchange at time 1000 with the
default lifetime yields an expiry strictly after 1000. -/
theorem c2_amended_expiry_future_witness :
    ∃ e : Int, (get_access_token ⟨"t", "c", "s"⟩ initialAuthState 1000 1000
        ⟨200, "body", "fresh", none⟩).state.token_expiry = some e ∧ 1000 < e :=
  c2_amended_expiry_future ⟨"t", "c", "s"⟩ initialAuthState 1000 1000
    ⟨200, "body", "fresh", none⟩ "fresh" (by decide) (by decide) rfl

/-- C8: under a configuration with a missing credential, every call to
`get_access_token` in a reachable cache state fails with the
`ConfigurationError` and attempts no network call, leaving the cache
unchanged.  (Reachability matters: the cache starts empty and, with a
credential missing, can never be filled, so the fast path never fires.) -/
theorem c8_missing_credentials (cfg : Config) (st : AuthState)
    (now exchangeTime : Int) (resp : TokenResponse)
    (hmiss : credentialsMissing cfg = true)
    (hreach : ReachableAuth cfg st) :
    (get_access_token cfg st now exchangeTime resp).result =
      .error (.configurationError
        "Missing required credentials: TENANT_ID, CLIENT_ID, CLIENT_SECRET") ∧
    (get_access_token cfg st now exchangeTime resp).exchangeCalls = 0 ∧
    (get_access_token cfg st now exchangeTime resp).state = st := by
  have hst := reachable_empty_of_missing_credentials cfg hmiss st hreach
  subst hst
  simp [get_access_token, fastPathB, strTruthy, initialAuthState, hmiss]

/-- Witness for C8: empty `TENANT_ID` at the initial state. -/
theorem c8_missing_credentials_witness :
    (get_access_token ⟨"", "c", "s"⟩ initialAuthState 0 0
        ⟨200, "body", "fresh", none⟩).result =
      .error (.configurationError
        "Missing required credentials: TENANT_ID, CLIENT_ID, CLIENT_SECRET") ∧
    (get_access_token ⟨"", "c", "s"⟩ initialAuthState 0 0
        ⟨200, "body", "fresh", none⟩).exchangeCalls = 0 ∧
    (get_access_token ⟨"", "c", "s"⟩ initialAuthState 0 0
        ⟨200, "body", "fresh", none⟩).state = initialAuthState :=
  c8_missing_credentials ⟨"", "c", "s"⟩ initialAuthState 0 0
    ⟨200, "body", "fresh", none⟩ (by decide) ReachableAuth.init

/-- Helper: for any of the four supported methods, the dispatch outcome is
the handling of the single issued Graph HTTP call. -/
theorem dispatchMethod_supported (parse : String → Option JsonVal)
    (method endpoint : String) (data : Option JsonVal)
    (params : Option (List (String × String))) (token : String)
    (resp : GraphResponse)
    (hm : pyUpper method = "GET" ∨ pyUpper method = "POST" ∨
      pyUpper method = "PATCH" ∨ pyUpper method = "DELETE") :
    (dispatchMethod parse method endpoint data params token resp).1 =
      handleGraphResponse parse resp ∧
    (dispatchMethod parse method endpoint data params token resp).2.length = 1 := by
  rcases hm with h | h | h | h <;> simp [dispatchMethod, h]

/-- Counterexample to C1 as stated: with an empty token cache and valid
credentials, `request("TRACE", "/me/messages")` does fail with the
unsupported-method error and issues no Graph call, but only AFTER a
token-exchange network call has been made (`exchangeCalls = 1`, not zero). -/
theorem c1_counterexample :
    (make_graph_request (fun _ => none) ⟨"t", "c", "s"⟩ initialAuthState 0 0
        ⟨200, "body", "fresh", some 3600⟩ "TRACE" "/me/messages" none none
        ⟨200, ""⟩).result = .error (.unsupportedMethod "TRACE") ∧
    (make_graph_request (fun _ => none) ⟨"t", "c", "s"⟩ initialAuthState 0 0
        ⟨200, "body", "fresh", some 3600⟩ "TRACE" "/me/messages" none none
        ⟨200, ""⟩).exchangeCalls = 1 := by
  constructor <;> rfl

/-- C1 amended: for a method that upper-cases to none of GET, POST, PATCH,
DELETE, the dispatcher fails with the unsupported-method error carrying the
original method string and issues no Graph HTTP call; no token-exchange
call occurs when a usable token is cached, but token acquisition runs first
and may perform one exchange otherwise. -/
theorem c1_amended_unsupported_method (parse : String → Option JsonVal)
    (cfg : Config) (st : AuthState) (now exchangeTime : Int)
    (tokenResp : TokenResponse) (method endpoint : String)
    (data : Option JsonVal) (params : Option (List (String × String)))
    (graphResp : GraphResponse) (tok : String)
    (hauth : (get_access_token cfg st now exchangeTime tokenResp).result = .ok tok)
    (h1 : pyUpper method ≠ "GET") (h2 : pyUpper method ≠ "POST")
    (h3 : pyUpper method ≠ "PATCH") (h4 : pyUpper method ≠ "DELETE") :
    (make_graph_request parse cfg st now exchangeTime tokenResp method endpoint
        data params graphResp).result = .error (.unsupportedMethod method) ∧
    (make_graph_request parse cfg st now exchangeTime tokenResp method endpoint
        data params graphResp).httpCalls = [] ∧
    (fastPathB st now = true →
      (make_graph_request parse cfg st now exchangeTime tokenResp method endpoint
        data params graphResp).exchangeCalls = 0) := by
  rw [make_graph_request_ok_eq parse cfg st now exchangeTime tokenResp method
    endpoint data params graphResp tok hauth]
  refine ⟨?_, ?_, ?_⟩
  · simp [dispatchMethod, h1, h2, h3, h4]
  · simp [dispatchMethod, h1, h2, h3, h4]
  · intro hfast
    simp [get_access_token, hfast]

/-- Witness for the amended C1: a valid cached token, method "TRACE". -/
theorem c1_amended_unsupported_method_witness :
    (make_graph_request (fun _ => none) ⟨"t", "c", "s"⟩ ⟨some "tok", some 100⟩ 5 5
        ⟨200, "body", "fresh", some 3600⟩ "TRACE" "/me/messages" none none
        ⟨200, ""⟩).result = .error (.unsupportedMethod "TRACE") ∧
    (make_graph_request (fun _ => none) ⟨"t", "c", "s"⟩ ⟨some "tok", some 100⟩ 5 5
        ⟨200, "body", "fresh", some 3600⟩ "TRACE" "/me/messages" none none
        ⟨200, ""⟩).httpCalls = [] ∧
    (fastPathB ⟨some "tok", some 100⟩ 5 = true →
      (make_graph_request (fun _ => none) ⟨"t", "c", "s"⟩ ⟨some "tok", some 100⟩ 5 5
        ⟨200, "body", "fresh", some 3600⟩ "TRACE" "/me/messages" none none
        ⟨200, ""⟩).exchangeCalls = 0) :=
  c1_amended_unsupported_method (fun _ => none) ⟨"t", "c", "s"⟩
    ⟨some "tok", some 100⟩ 5 5 ⟨200, "body", "fresh", some 3600⟩ "TRACE"
    "/me/messages" none none ⟨200, ""⟩ "tok" rfl
    (by decide) (by decide) (by decide) (by decide)

/-- Counterexample to C3 as stated: a DELETE with query parameters present
issues an HTTP call that carries NO query parameters (the source passes
neither `params=` nor `json=` to `client.delete`). -/
theorem c3_counterexample :
    (make_graph_request (fun _ => none) ⟨"t", "c", "s"⟩ ⟨some "tok", some 100⟩ 5 5
        ⟨200, "body", "fresh", some 3600⟩ "DELETE" "/me/messages/1" none
        (some [("$select", "id")]) ⟨204, ""⟩).httpCalls =
      [⟨"DELETE", "https://graph.microsoft.com/v1.0/me/messages/1", "tok",
        none, none, 30⟩] := rfl

/-- C3 amended: GET and DELETE carry no JSON body, POST and PATCH carry the
given body; query parameters are forwarded on GET, POST and PATCH, but
DELETE drops them. -/
theorem c3_amended_request_shape (parse : String → Option JsonVal)
    (cfg : Config) (st : AuthState) (now exchangeTime : Int)
    (tokenResp : TokenResponse) (endpoint : String) (data : Option JsonVal)
    (params : Option (List (String × String))) (graphResp : GraphResponse)
    (tok : String)
    (hauth : (get_access_token cfg st now exchangeTime tokenResp).result = .ok tok) :
    (make_graph_request parse cfg st now exchangeTime tokenResp "GET" endpoint
        data params graphResp).httpCalls =
      [⟨"GET", GRAPH_BASE_URL ++ endpoint, tok, none, params, 30⟩] ∧
    (make_graph_request parse cfg st now exchangeTime tokenResp "POST" endpoint
        data params graphResp).httpCalls =
      [⟨"POST", GRAPH_BASE_URL ++ endpoint, tok, data, params, 30⟩] ∧
    (make_graph_request parse cfg st now exchangeTime tokenResp "PATCH" endpoint
        data params graphResp).httpCalls =
      [⟨"PATCH", GRAPH_BASE_URL ++ endpoint, tok, data, params, 30⟩] ∧
    (make_graph_request parse cfg st now exchangeTime tokenResp "DELETE" endpoint
        data params graphResp).httpCalls =
      [⟨"DELETE", GRAPH_BASE_URL ++ endpoint, tok, none, none, 30⟩] := by
  refine ⟨?_, ?_, ?_, ?_⟩ <;>
  · rw [make_graph_request_ok_eq parse cfg st now exchangeTime tokenResp _
      endpoint data params graphResp tok hauth]
    rfl

/-- Witness for the amended C3 at a concrete cached-token state. -/
theorem c3_amended_request_shape_witness :
    (make_graph_request (fun _ => none) ⟨"t", "c", "s"⟩ ⟨some "tok", some 100⟩ 5 5
        ⟨200, "body", "fresh", some 3600⟩ "GET" "/me/messages"
        (some (JsonVal.obj [])) (some [("$top", "25")]) ⟨200, ""⟩).httpCalls =
      [⟨"GET", GRAPH_BASE_URL ++ "/me/messages", "tok", none,
        some [("$top", "25")], 30⟩] ∧
    (make_graph_request (fun _ => none) ⟨"t", "c", "s"⟩ ⟨some "tok", some 100⟩ 5 5
        ⟨200, "body", "fresh", some 3600⟩ "POST" "/me/messages"
        (some (JsonVal.obj [])) (some [("$top", "25")]) ⟨200, ""⟩).httpCalls =
      [⟨"POST", GRAPH_BASE_URL ++ "/me/messages", "tok", some (JsonVal.obj []),
        some [("$top", "25")], 30⟩] ∧
    (make_graph_request (fun _ => none) ⟨"t", "c", "s"⟩ ⟨some "tok", some 100⟩ 5 5
        ⟨200, "body", "fresh", some 3600⟩ "PATCH" "/me/messages"
        (some (JsonVal.obj [])) (some [("$top", "25")]) ⟨200, ""⟩).httpCalls =
      [⟨"PATCH", GRAPH_BASE_URL ++ "/me/messages", "tok", some (JsonVal.obj []),
        some [("$top", "25")], 30⟩] ∧
    (make_graph_request (fun _ => none) ⟨"t", "c", "s"⟩ ⟨some "tok", some 100⟩ 5 5
        ⟨200, "body", "fresh", some 3600⟩ "DELETE" "/me/messages"
        (some (JsonVal.obj [])) (some [("$top", "25")]) ⟨200, ""⟩).httpCalls =
      [⟨"DELETE", GRAPH_BASE_URL ++ "/me/messages", "tok", none, none, 30⟩] :=
  c3_amended_request_shape (fun _ => none) ⟨"t", "c", "s"⟩ ⟨some "tok", some 100⟩
    5 5 ⟨200, "body", "fresh", some 3600⟩ "/me/messages" (some (JsonVal.obj []))
    (some [("$top", "25")]) ⟨200, ""⟩ "tok" rfl

/-- C7: when a token is obtained, the method is supported and the Graph
response status is a client/server error (4xx/5xx), the call fails with the
`RemoteAPIError` carrying the numeric status and the raw body text
verbatim, and exactly one Graph HTTP request was made. -/
theorem c7_remote_api_error (parse : String → Option JsonVal)
    (cfg : Config) (st : AuthState) (now exchangeTime : Int)
    (tokenResp : TokenResponse) (method endpoint : String)
    (data : Option JsonVal) (params : Option (List (String × String)))
    (graphResp : GraphResponse) (tok : String)
    (hauth : (get_access_token cfg st now exchangeTime tokenResp).result = .ok tok)
    (hm : pyUpper method = "GET" ∨ pyUpper method = "POST" ∨
      pyUpper method = "PATCH" ∨ pyUpper method = "DELETE")
    (h400 : 400 ≤ graphResp.status) (h600 : graphResp.status < 600) :
    (make_graph_request parse cfg st now exchangeTime tokenResp method endpoint
        data params graphResp).result =
      .error (.apiError graphResp.status graphResp.text) ∧
    (make_graph_request parse cfg st now exchangeTime tokenResp method endpoint
        data params graphResp).httpCalls.length = 1 := by
  rw [make_graph_request_ok_eq parse cfg st now exchangeTime tokenResp method
    endpoint data params graphResp tok hauth]
  obtain ⟨hfst, hlen⟩ := dispatchMethod_supported parse method endpoint data
    params tok graphResp hm
  have hfail : isSuccessStatus graphResp.status = false := by
    simp [isSuccessStatus]
    omega
  constructor
  · show (dispatchMethod parse method endpoint data params tok graphResp).1 = _
    rw [hfst]
    simp [handleGraphResponse, hfail]
  · exact hlen

/-- Witness for C7: a 403 with a raw body is surfaced verbatim after one
Graph call. -/
theorem c7_remote_api_error_witness :
    (make_graph_request (fun _ => none) ⟨"t", "c", "s"⟩ ⟨some "tok", some 100⟩ 5 5
        ⟨200, "body", "fresh", some 3600⟩ "GET" "/me/messages" none none
        ⟨403, "Access denied"⟩).result = .error (.apiError 403 "Access denied") ∧
    (make_graph_request (fun _ => none) ⟨"t", "c", "s"⟩ ⟨some "tok", some 100⟩ 5 5
        ⟨200, "body", "fresh", some 3600⟩ "GET" "/me/messages" none none
        ⟨403, "Access denied"⟩).httpCalls.length = 1 :=
  c7_remote_api_error (fun _ => none) ⟨"t", "c", "s"⟩ ⟨some "tok", some 100⟩ 5 5
    ⟨200, "body", "fresh", some 3600⟩ "GET" "/me/messages" none none
    ⟨403, "Access denied"⟩ "tok" rfl (Or.inl (by decide)) (by decide) (by decide)

/-- C9: on a successful (2xx) Graph response, an empty body yields the empty
JSON object rather than a parse error, and a non-empty body is returned
parsed as JSON. -/
theorem c9_success_parse (parse : String → Option JsonVal)
    (cfg : Config) (st : AuthState) (now exchangeTime : Int)
    (tokenResp : TokenResponse) (method endpoint : String)
    (data : Option JsonVal) (params : Option (List (String × String)))
    (graphResp : GraphResponse) (tok : String)
    (hauth : (get_access_token cfg st now exchangeTime tokenResp).result = .ok tok)
    (hm : pyUpper method = "GET" ∨ pyUpper method = "POST" ∨
      pyUpper method = "PATCH" ∨ pyUpper method = "DELETE")
    (hok : isSuccessStatus graphResp.status = true) :
    (graphResp.text = "" →
      (make_graph_request parse cfg st now exchangeTime tokenResp method endpoint
        data params graphResp).result = .ok (JsonVal.obj [])) ∧
    (∀ v : JsonVal, graphResp.text ≠ "" → parse graphResp.text = some v →
      (make_graph_request parse cfg st now exchangeTime tokenResp method endpoint
        data params graphResp).result = .ok v) := by
  rw [make_graph_request_ok_eq parse cfg st now exchangeTime tokenResp method
    endpoint data params graphResp tok hauth]
  obtain ⟨hfst, _⟩ := dispatchMethod_supported parse method endpoint data
    params tok graphResp hm
  constructor
  · intro hempty
    show (dispatchMethod parse method endpoint data params tok graphResp).1 = _
    rw [hfst]
    simp [handleGraphResponse, hok, hempty]
  · intro v hne hparse
    show (dispatchMethod parse method endpoint data params tok graphResp).1 = _
    rw [hfst]
    simp [handleGraphResponse, hok, hne, hparse]

/-- Witness for C9, covering both the empty-body (204-style) case and a
non-empty body parsed by the supplied parse function. -/
theorem c9_success_parse_witness :
    ((GraphResponse.mk 200 "X").text = "" →
      (make_graph_request (fun s => if s == "X" then some (JsonVal.str "X") else none)
        ⟨"t", "c", "s"⟩ ⟨some "tok", some 100⟩ 5 5
        ⟨200, "body", "fresh", some 3600⟩ "GET" "/me/messages" none none
        ⟨200, "X"⟩).result = .ok (JsonVal.obj [])) ∧
    (∀ v : JsonVal, (GraphResponse.mk 200 "X").text ≠ "" →
      (fun s => if s == "X" then some (JsonVal.str "X") else none)
          (GraphResponse.mk 200 "X").text = some v →
      (make_graph_request (fun s => if s == "X" then some (JsonVal.str "X") else none)
        ⟨"t", "c", "s"⟩ ⟨some "tok", some 100⟩ 5 5
        ⟨200, "body", "fresh", some 3600⟩ "GET" "/me/messages" none none
        ⟨200, "X"⟩).result = .ok v) :=
  c9_success_parse (fun s => if s == "X" then some (JsonVal.str "X") else none)
    ⟨"t", "c", "s"⟩ ⟨some "tok", some 100⟩ 5 5 ⟨200, "body", "fresh", some 3600⟩
    "GET" "/me/messages" none none ⟨200, "X"⟩ "tok" rfl (Or.inl (by decide)) rfl

/-- Counterexample to C10 as stated: `request("trace", ...)` and
`request("TRACE", ...)` do not behave identically — both fail with the
unsupported-method error, but each carries its own original method string,
and those payloads differ. -/
theorem c10_counterexample :
    (make_graph_request (fun _ => none) ⟨"t", "c", "s"⟩ ⟨some "tok", some 100⟩ 5 5
        ⟨200, "body", "fresh", some 3600⟩ "trace" "/me/messages" none none
        ⟨200, ""⟩).result = .error (.unsupportedMethod "trace") ∧
    (make_graph_request (fun _ => none) ⟨"t", "c", "s"⟩ ⟨some "tok", some 100⟩ 5 5
        ⟨200, "body", "fresh", some 3600⟩ "TRACE" "/me/messages" none none
        ⟨200, ""⟩).result = .error (.unsupportedMethod "TRACE") ∧
    GraphError.unsupportedMethod "trace" ≠ GraphError.unsupportedMethod "TRACE" := by
  refine ⟨rfl, rfl, by decide⟩

/-- C10 amended: for every method whose upper-case form is one of the four
supported verbs, the dispatcher behaves identically on `method` and on
`method.upper()` — same result, same cache, same network calls. -/
theorem c10_amended_case_insensitive (parse : String → Option JsonVal)
    (cfg : Config) (st : AuthState) (now exchangeTime : Int)
    (tokenResp : TokenResponse) (method endpoint : String)
    (data : Option JsonVal) (params : Option (List (String × String)))
    (graphResp : GraphResponse)
    (hm : pyUpper method = "GET" ∨ pyUpper method = "POST" ∨
      pyUpper method = "PATCH" ∨ pyUpper method = "DELETE") :
    make_graph_request parse cfg st now exchangeTime tokenResp method endpoint
        data params graphResp =
      make_graph_request parse cfg st now exchangeTime tokenResp (pyUpper method)
        endpoint data params graphResp := by
  have hd : dispatchMethod parse method endpoint data params =
      dispatchMethod parse (pyUpper method) endpoint data params := by
    funext token resp
    rcases hm with h | h | h | h <;>
    · simp only [dispatchMethod]
      rw [h]
      rfl
  simp only [make_graph_request, hd]

/-- Witness for the amended C10: "get" is dispatched exactly like "GET". -/
theorem c10_amended_case_insensitive_witness :
    make_graph_request (fun _ => none) ⟨"t", "c", "s"⟩ ⟨some "tok", some 100⟩ 5 5
        ⟨200, "body", "fresh", some 3600⟩ "get" "/me/messages" none none
        ⟨200, ""⟩ =
      make_graph_request (fun _ => none) ⟨"t", "c", "s"⟩ ⟨some "tok", some 100⟩ 5 5
        ⟨200, "body", "fresh", some 3600⟩ (pyUpper "get") "/me/messages" none none
        ⟨200, ""⟩ :=
  c10_amended_case_insensitive (fun _ => none) ⟨"t", "c", "s"⟩
    ⟨some "tok", some 100⟩ 5 5 ⟨200, "body", "fresh", some 3600⟩ "get"
    "/me/messages" none none ⟨200, ""⟩ (Or.inl (by decide))

end OutlookServer
